import Mathlib

/-!
# redtimer client: window data and settings data

A shallow embedding of `src/client/Window.h` and `src/client/Settings.h`.

* `redtimer.Window.Data` and `redtimer.Settings.Data` are the two `struct`s of the
  headers, field for field.
* `redtimer.Window.Data.debug` is the inline `operator<<( QDebug, const Window::Data& )`
  of `Window.h`, written over a small model of the Qt classes it calls
  (`QDebug`, `QDebugStateSaver`, and the Qt stream operators of `QPoint` and `QRect`).
* `redtimer.Settings.Models` holds the four cached list models of `Settings.h`; their
  refresh, whose code is outside the two headers, follows the specification's words.
-/

namespace redtimer

/-! ## Qt value types used by the headers -/

/-- Qt point as seen through its accessors `x()` and `y()`. -/
structure QPoint where
  x : Int
  y : Int
  deriving DecidableEq, Repr

/-- Qt rectangle as seen through its accessors `x()`, `y()`, `width()` and `height()`:
a top-left corner and a size. -/
structure QRect where
  x : Int
  y : Int
  width : Int
  height : Int
  deriving DecidableEq, Repr

/-- Top-left corner of a rectangle, `QRect::topLeft()`. -/
def QRect.topLeft (r : QRect) : QPoint := ⟨r.x, r.y⟩

/-! ## Qt debug streams

`QDebug` is a handle on a shared stream object.  Copies of a `QDebug` (the by-value
parameter and the returned value of a stream operator) point at the same stream, so
the model keeps the identity of that stream object next to its contents.  The
operations follow Qt 5.4 and later, where the stream operators of the geometry types
work under a `QDebugStateSaver`. -/

/-- Debug stream: the identity of the shared stream object, the text written so far
and the formatting state that `QDebugStateSaver` saves (`autoInsertSpaces`, the
no-quotes flag and the verbosity level). -/
structure QDebug where
  stream : Nat
  buffer : String
  space : Bool
  noQuotes : Bool
  verbosity : Nat
  deriving DecidableEq, Repr

namespace QDebug

/-- Qt `QDebug::nospace()`: switch automatic insertion of spaces off. -/
def nospace (d : QDebug) : QDebug := { d with space := false }

/-- Qt `QDebug::maybeSpace()`: write a space when automatic insertion is on. -/
def maybeSpace (d : QDebug) : QDebug :=
  if d.space then { d with buffer := d.buffer ++ " " } else d

/-- Qt `QDebug::operator<<(const char*)`: write the text as it is (no quoting), then
`maybeSpace()`. -/
def putCStr (d : QDebug) (t : String) : QDebug :=
  maybeSpace { d with buffer := d.buffer ++ t }

/-- Qt `QDebug::operator<<(char)`: write the character, then `maybeSpace()`. -/
def putChar (d : QDebug) (c : Char) : QDebug :=
  maybeSpace { d with buffer := d.buffer ++ String.singleton c }

/-- Qt `QDebug::operator<<(int)`: write the number in decimal, then `maybeSpace()`. -/
def putInt (d : QDebug) (n : Int) : QDebug :=
  maybeSpace { d with buffer := d.buffer ++ toString n }

end QDebug

/-- Formatting state kept by a `QDebugStateSaver` between its construction and its
destruction. -/
structure QDebugStateSaver where
  space : Bool
  noQuotes : Bool
  verbosity : Nat
  deriving DecidableEq, Repr

namespace QDebugStateSaver

/-- Constructor of `QDebugStateSaver`: remember the stream's formatting state. -/
def save (d : QDebug) : QDebugStateSaver :=
  { space := d.space, noQuotes := d.noQuotes, verbosity := d.verbosity }

/-- Destructor of `QDebugStateSaver`: put the saved formatting state back, "then calls
`maybeSpace()`, to separate arguments with a space if `autoInsertSpaces()` was true at
the time of constructing the `QDebugStateSaver`" (Qt documentation).  In Qt's
`restoreState()` a trailing space is first removed when spacing was switched on
in between, and a space is written when spacing was switched off in between. -/
def restore (s : QDebugStateSaver) (d : QDebug) : QDebug :=
  let currentSpaces := d.space
  let chopped : String :=
    if currentSpaces && !s.space then
      (if d.buffer.endsWith " " then d.buffer.dropRight 1 else d.buffer)
    else d.buffer
  let restored : QDebug :=
    { d with buffer := chopped, space := s.space, noQuotes := s.noQuotes,
             verbosity := s.verbosity }
  if !currentSpaces && s.space then
    { restored with buffer := restored.buffer ++ " " }
  else restored

end QDebugStateSaver

/-- Text that Qt's stream operator for `QPoint` writes: `QPoint(x,y)`. -/
def QPoint.render (p : QPoint) : String :=
  "QPoint" ++ "(" ++ toString p.x ++ "," ++ toString p.y ++ ")"

/-- Text that Qt's stream operator for `QRect` writes: `QRect(x,y wxh)`. -/
def QRect.render (r : QRect) : String :=
  "QRect" ++ "(" ++ toString r.x ++ "," ++ toString r.y ++ " " ++
    toString r.width ++ "x" ++ toString r.height ++ ")"

/-- Qt `operator<<(QDebug, const QPoint&)`: under a state saver and with spacing off,
write `QPoint`, `(`, x, `,`, y, `)`. -/
def QPoint.debug (dbg : QDebug) (p : QPoint) : QDebug :=
  let saver := QDebugStateSaver.save dbg
  let dbg := dbg.nospace
  let dbg := (dbg.putCStr "QPoint").putChar '('
  let dbg := ((dbg.putInt p.x).putChar ',').putInt p.y
  let dbg := dbg.putChar ')'
  saver.restore dbg

/-- Qt `operator<<(QDebug, const QRect&)`: under a state saver and with spacing off,
write `QRect`, `(`, x, `,`, y, a blank, width, `x`, height, `)`. -/
def QRect.debug (dbg : QDebug) (r : QRect) : QDebug :=
  let saver := QDebugStateSaver.save dbg
  let dbg := dbg.nospace
  let dbg := (dbg.putCStr "QRect").putChar '('
  let dbg := ((((((dbg.putInt r.x).putChar ',').putInt r.y).putChar ' ').putInt
    r.width).putChar 'x').putInt r.height
  let dbg := dbg.putChar ')'
  saver.restore dbg

/-! ## `Window.h` -/

namespace Window

/-- Position and size of windows (`Window::Data`): the last window size `geometry`
and the last window position `position`. -/
structure Data where
  geometry : QRect
  position : QPoint
  deriving DecidableEq, Repr

/-- Text between the brackets included that `operator<<( QDebug, const Window::Data& )`
streams: the three string literals of the source with the two members in between. -/
def Data.text (item : Data) : String :=
  "[position: " ++ item.position.render ++ ", geometry: \"" ++ item.geometry.render ++ "\"]"

/-- QDebug stream operator for window data, `operator<<( QDebug debug, const
Window::Data& item )`: a state saver on `debug`, then
`debug.nospace() << "[position: " << item.position << ", geometry: \"" <<
item.geometry << "\"]"`, and `debug` is returned; the saver is destroyed on return. -/
def Data.debug (debug : QDebug) (item : Data) : QDebug :=
  let saver := QDebugStateSaver.save debug
  let debug := debug.nospace
  let debug := debug.putCStr "[position: "
  let debug := QPoint.debug debug item.position
  let debug := debug.putCStr ", geometry: \""
  let debug := QRect.debug debug item.geometry
  let debug := debug.putCStr "\"]"
  saver.restore debug

end Window

/-! ## `Settings.h` -/

namespace Settings

/-- Settings data structure for the currently loaded profile (`Settings::Data`), member
for member: the GUI settings, the internal settings and the window data.  The two
parameters are the types the header takes from elsewhere: `Issues` stands for
`qtredmine::Issues` of the Redmine client library, `WindowData` for the type name
`WindowData` of the four window members, which is declared outside `Window.h` and
`Settings.h`. -/
structure Data (Issues WindowData : Type) where
  apiKey : String
  checkConnection : Bool
  ignoreSslErrors : Bool
  numRecentIssues : Int
  shortcutCreateIssue : String
  shortcutSelectIssue : String
  shortcutStartStop : String
  shortcutToggle : String
  url : String
  useCustomFields : Bool
  useSystemTrayIcon : Bool
  closeToTray : Bool
  workedOnId : Int
  defaultTrackerId : Int
  startTimeFieldId : Int
  endTimeFieldId : Int
  activityId : Int
  issueId : Int
  projectId : Int
  recentIssues : Issues
  issueCreator : WindowData
  issueSelector : WindowData
  mainWindow : WindowData
  settings : WindowData

/-- Names of the members of `Settings::Data` that are declared with the type
`WindowData`, in the order of the header. -/
inductive WindowMember where
  | issueCreator
  | issueSelector
  | mainWindow
  | settings
  deriving DecidableEq, Repr, Fintype

/-- Window data member of the settings data that a member name stands for. -/
def Data.windowData {Issues WindowData : Type} (d : Data Issues WindowData) :
    WindowMember → WindowData
  | .issueCreator => d.issueCreator
  | .issueSelector => d.issueSelector
  | .mainWindow => d.mainWindow
  | .settings => d.settings

/-- Members of `Settings::Data` that are not window data, in the order of the header:
the GUI settings and the internal settings. -/
def Data.otherMembers {Issues WindowData : Type} (d : Data Issues WindowData) :
    (String × Bool × Bool × Int × String × String × String × String × String ×
      Bool × Bool × Bool × Int × Int × Int × Int) × (Int × Int × Int × Issues) :=
  ((d.apiKey, d.checkConnection, d.ignoreSslErrors, d.numRecentIssues,
    d.shortcutCreateIssue, d.shortcutSelectIssue, d.shortcutStartStop, d.shortcutToggle,
    d.url, d.useCustomFields, d.useSystemTrayIcon, d.closeToTray, d.workedOnId,
    d.defaultTrackerId, d.startTimeFieldId, d.endTimeFieldId),
   (d.activityId, d.issueId, d.projectId, d.recentIssues))

/-- Settings data with the four window data members assigned from `f`. -/
def Data.withWindowData {Issues WindowData : Type} (d : Data Issues WindowData)
    (f : WindowMember → WindowData) : Data Issues WindowData :=
  { d with issueCreator := f .issueCreator, issueSelector := f .issueSelector,
           mainWindow := f .mainWindow, settings := f .settings }

end Settings

/-! ## Cached reference lists -/

/-- Modelled from the spec: `SimpleModel` and its items are declared in `Models.h`, which
is not among the sources.  The spec has the cached reference lists as "simple ID/name
pairs" and, in the glossary, "Simple model: a minimal list-backed data model used to
populate GUI dropdowns/lists from server-fetched reference data". -/
structure SimpleItem where
  id : Int
  name : String
  deriving DecidableEq, Repr

/-- Modelled from the spec: `SimpleModel` of `Models.h` (not among the sources), "a
minimal list-backed data model": the list of its rows. -/
abbrev SimpleModel : Type := List SimpleItem

namespace SimpleModel

/-- Modelled from the spec: emptying a list-backed model (`Models.h` is not among the
sources). -/
def clear (_m : SimpleModel) : SimpleModel := []

/-- Modelled from the spec: adding a row at the end of a list-backed model (`Models.h`
is not among the sources). -/
def push_back (m : SimpleModel) (item : SimpleItem) : SimpleModel := m ++ [item]

/-- Modelled from the spec: the refresh of a cached reference list, whose code is in
`Settings.cpp` and not among the sources.  The spec has the lists "fetched from the
external server and mirrored into list models for display; refreshed on demand, no
eviction policy beyond full replacement": the model is emptied and every fetched
ID/name pair is added in the order received. -/
def refresh (m : SimpleModel) (fetched : List SimpleItem) : SimpleModel :=
  fetched.foldl push_back (clear m)

end SimpleModel

/-- Cached list models of a `Settings` object, the four `SimpleModel` members
`issueStatusModel_`, `trackerModel_`, `startTimeModel_` and `endTimeModel_` of
`Settings.h`. -/
structure Settings.Models where
  issueStatusModel_ : SimpleModel
  trackerModel_ : SimpleModel
  startTimeModel_ : SimpleModel
  endTimeModel_ : SimpleModel
  deriving DecidableEq, Repr

namespace Settings.Models

/-- Modelled from the spec: `Settings::updateIssueStatuses()`, declared in `Settings.h`
with its body in `Settings.cpp` (not among the sources), once the server has answered
with `fetched`: the cached issue statuses are refreshed by full replacement. -/
def updateIssueStatuses (s : Models) (fetched : List SimpleItem) : Models :=
  { s with issueStatusModel_ := s.issueStatusModel_.refresh fetched }

/-- Modelled from the spec: `Settings::updateTrackers()`, declared in `Settings.h` with
its body in `Settings.cpp` (not among the sources), once the server has answered with
`fetched`: the cached trackers are refreshed by full replacement. -/
def updateTrackers (s : Models) (fetched : List SimpleItem) : Models :=
  { s with trackerModel_ := s.trackerModel_.refresh fetched }

/-- Modelled from the spec: `Settings::updateTimeEntryCustomFields()`, declared in
`Settings.h` with its body in `Settings.cpp` (not among the sources), once the server
has answered with `fetched`: the two cached lists of time entry custom fields, for the
start time and for the end time, are refreshed by full replacement. -/
def updateTimeEntryCustomFields (s : Models) (fetched : List SimpleItem) : Models :=
  { s with startTimeModel_ := s.startTimeModel_.refresh fetched,
           endTimeModel_ := s.endTimeModel_.refresh fetched }

end Settings.Models

end redtimer

namespace redtimer

/-! ## Debug streaming -/

/-- Streaming a point appends its rendering, and the separating space of the state
saver when spacing is on. -/
theorem QDebug.stream_point (d : QDebug) (p : QPoint) :
    QPoint.debug d p =
      { d with buffer := d.buffer ++ p.render ++ (if d.space then " " else "") } := by
  cases d with
  | mk st buf sp nq vb =>
    cases sp <;>
      simp [QPoint.debug, QPoint.render, QDebugStateSaver.save, QDebugStateSaver.restore,
        QDebug.nospace, QDebug.putCStr, QDebug.putChar, QDebug.putInt, QDebug.maybeSpace,
        String.append_assoc, -String.reduceAppend] <;> rfl

/-- Streaming a rectangle appends its rendering, and the separating space of the state
saver when spacing is on. -/
theorem QDebug.stream_rect (d : QDebug) (r : QRect) :
    QRect.debug d r =
      { d with buffer := d.buffer ++ r.render ++ (if d.space then " " else "") } := by
  cases d with
  | mk st buf sp nq vb =>
    cases sp <;>
      simp [QRect.debug, QRect.render, QDebugStateSaver.save, QDebugStateSaver.restore,
        QDebug.nospace, QDebug.putCStr, QDebug.putChar, QDebug.putInt, QDebug.maybeSpace,
        String.append_assoc, -String.reduceAppend] <;> rfl

/-- C9, as amended: for every window data item and every debug stream, the stream
operator appends the text `[position: ` + point + `, geometry: "` + rectangle + `"]`
with nothing inserted inside it, followed by one separating space exactly when the
stream was inserting spaces automatically at the call; what comes back is the same
stream object, and its formatting state (spacing mode, quoting flag, verbosity) is what
it was before the call. -/
theorem Window.Data.debug_appends (debug : QDebug) (item : Window.Data) :
    Window.Data.debug debug item =
      { debug with
        buffer := debug.buffer ++ item.text ++ (if debug.space then " " else "") } := by
  cases debug with
  | mk st buf sp nq vb =>
    cases sp <;>
      simp [Window.Data.debug, Window.Data.text, QDebug.stream_point, QDebug.stream_rect,
        QDebugStateSaver.save, QDebugStateSaver.restore, QDebug.nospace, QDebug.putCStr,
        QDebug.maybeSpace, String.append_assoc, -String.reduceAppend]

/-- C9, as stated, fails on a stream that inserts spaces automatically (the state of a
fresh `qDebug()`): for the window data with position (1,-2) and geometry 10x10 at (0,0)
the operator does not append exactly the bracketed text, it appends that text and a
space. -/
theorem Window.Data.debug_trailing_space :
    Window.Data.text ⟨⟨0, 0, 10, 10⟩, ⟨1, -2⟩⟩
        = "[position: QPoint(1,-2), geometry: \"QRect(0,0 10x10)\"]" ∧
      (Window.Data.debug ⟨0, "", true, false, 0⟩ ⟨⟨0, 0, 10, 10⟩, ⟨1, -2⟩⟩).buffer
        ≠ "" ++ Window.Data.text ⟨⟨0, 0, 10, 10⟩, ⟨1, -2⟩⟩ ∧
      (Window.Data.debug ⟨0, "", true, false, 0⟩ ⟨⟨0, 0, 10, 10⟩, ⟨1, -2⟩⟩).buffer
        = "[position: QPoint(1,-2), geometry: \"QRect(0,0 10x10)\"] " := by
  decide

/-! ## Window data of a settings profile -/

/-- C7: with `Window::Data` as the window data type, the settings data of a profile hold
one window data record for each of exactly four windows (main window, issue creator,
issue selector, settings dialog): there are four window data members, each is the
member of that name, the four can be set independently of one another and of the other
members, and together with the other members they make up the whole of the data; each
record is a pair of a position and a geometry, the two members of `Window::Data`. -/
theorem Settings.Data.window_records (Issues : Type) :
    Fintype.card Settings.WindowMember = 4 ∧
    (∀ w : Settings.WindowMember,
      w = .mainWindow ∨ w = .issueCreator ∨ w = .issueSelector ∨ w = .settings) ∧
    (∀ d : Settings.Data Issues Window.Data,
      d.windowData .mainWindow = d.mainWindow ∧ d.windowData .issueCreator = d.issueCreator ∧
      d.windowData .issueSelector = d.issueSelector ∧ d.windowData .settings = d.settings) ∧
    (∀ (d : Settings.Data Issues Window.Data) (f : Settings.WindowMember → Window.Data),
      (∀ w, (d.withWindowData f).windowData w = f w) ∧
      (d.withWindowData f).otherMembers = d.otherMembers) ∧
    (∀ d e : Settings.Data Issues Window.Data,
      d.otherMembers = e.otherMembers → (∀ w, d.windowData w = e.windowData w) → d = e) ∧
    Function.Bijective (fun r : Window.Data => (r.position, r.geometry)) := by
  refine ⟨by decide, ?_, ?_, ?_, ?_, ?_⟩
  · intro w
    cases w <;> simp
  · intro d
    exact ⟨rfl, rfl, rfl, rfl⟩
  · intro d f
    refine ⟨?_, rfl⟩
    intro w
    cases w <;> rfl
  · intro d e hother hwin
    have h1 := hwin .issueCreator
    have h2 := hwin .issueSelector
    have h3 := hwin .mainWindow
    have h4 := hwin .settings
    cases d
    cases e
    simp only [Settings.Data.otherMembers, Prod.mk.injEq] at hother
    simp only [Settings.Data.windowData] at h1 h2 h3 h4
    simp only [Settings.Data.mk.injEq]
    tauto
  · constructor
    · intro a b h
      cases a
      cases b
      simp only [Prod.mk.injEq] at h
      simp [h.1, h.2]
    · intro pg
      exact ⟨⟨pg.2, pg.1⟩, rfl⟩

/-! ## Refreshing the cached reference lists -/

/-- Adding the fetched pairs one by one to a model appends the fetched list to it. -/
theorem SimpleModel.foldl_push_back (acc : SimpleModel) (fetched : List SimpleItem) :
    fetched.foldl SimpleModel.push_back acc = acc ++ fetched := by
  induction fetched generalizing acc with
  | nil => simp
  | cons item rest ih => simp [List.foldl, ih, SimpleModel.push_back]

/-- A refreshed model is the fetched list, whatever it held before. -/
theorem SimpleModel.refresh_eq (m : SimpleModel) (fetched : List SimpleItem) :
    m.refresh fetched = fetched := by
  simp [SimpleModel.refresh, SimpleModel.clear, SimpleModel.foldl_push_back]

/-- C8: after `updateTrackers()`, `updateIssueStatuses()` or
`updateTimeEntryCustomFields()` has completed with the fetched list `fetched`, the
model it refreshes (the tracker model, the issue status model, the start time and end
time models) is exactly `fetched`, and no row of the model before the refresh that is
absent from `fetched` is left in it. -/
theorem Settings.Models.refresh_is_full_replacement (s : Settings.Models)
    (fetched : List SimpleItem) :
    ((s.updateTrackers fetched).trackerModel_ = fetched ∧
      (s.updateIssueStatuses fetched).issueStatusModel_ = fetched ∧
      (s.updateTimeEntryCustomFields fetched).startTimeModel_ = fetched ∧
      (s.updateTimeEntryCustomFields fetched).endTimeModel_ = fetched) ∧
    ((∀ e ∈ s.trackerModel_, e ∉ fetched → e ∉ (s.updateTrackers fetched).trackerModel_) ∧
      (∀ e ∈ s.issueStatusModel_, e ∉ fetched →
        e ∉ (s.updateIssueStatuses fetched).issueStatusModel_) ∧
      (∀ e ∈ s.startTimeModel_, e ∉ fetched →
        e ∉ (s.updateTimeEntryCustomFields fetched).startTimeModel_) ∧
      (∀ e ∈ s.endTimeModel_, e ∉ fetched →
        e ∉ (s.updateTimeEntryCustomFields fetched).endTimeModel_)) := by
  simp only [Settings.Models.updateTrackers, Settings.Models.updateIssueStatuses,
    Settings.Models.updateTimeEntryCustomFields, SimpleModel.refresh_eq]
  refine ⟨by simp, ?_, ?_, ?_, ?_⟩ <;> exact fun _ _ h => h

end redtimer
